import Mathlib

/-!
Shallow embedding of the orchestration core of the HUD dashboard
(`src/App.tsx`, component `HudInterface`): the Weather Resolver
(`fetchWeather`), News Feed Loader (`fetchNews`), Search Orchestrator
(`handleSearch`), Display Mode Selector (the feed-pane render
expression), and the timer/listener lifecycle of the three
`useEffect` blocks (clock, media progress, battery).

External collaborators (the Answer Engine, geolocation, the battery
capability) are opaque in the source, so their outcomes enter the
embedding as explicit parameters: an `Except` value for a fallible
call, an `Option String` for the possibly-absent `response.text`.
-/

namespace Hud

/-- The `weather` state slot: `{ temp, condition, location }`
(`App.tsx` line 50). All fields are strings, as in the source. -/
structure Weather where
  temp : String
  condition : String
  location : String
deriving DecidableEq, Repr

/-- Initial value of the `weather` slot (`App.tsx` lines 50-54). -/
def initialWeather : Weather :=
  { temp := "--", condition := "SCANNING...", location := "UNKNOWN SECTOR" }

/-- Failure modes of `navigator.geolocation.getCurrentPosition`: the
error callback (`App.tsx` line 143) receives either a permission
denial or a position-unavailable error; the source treats both alike. -/
inductive GeoError
  | permissionDenied
  | unavailable
deriving DecidableEq, Repr

/-- A successful Answer Engine call yields `response.text`, which may
be absent (`undefined`) or empty; a failed call throws (`ServiceError`),
modelled as `Except Unit`. -/
def EngineText : Type := Except Unit (Option String)

/-- Splitting a character list at every occurrence of `sep`, with the
accumulator holding the current segment reversed. Embeds the
JavaScript `String.prototype.split` with a one-character separator
(an empty input yields one empty segment, as in JavaScript). -/
def splitChars (sep : Char) : List Char → List Char → List (List Char)
  | [], acc => [acc.reverse]
  | c :: cs, acc =>
    if c = sep then acc.reverse :: splitChars sep cs []
    else splitChars sep cs (c :: acc)

/-- JavaScript `text.split(sep)` for a one-character separator. -/
def jsSplit (sep : Char) (s : String) : List String :=
  (splitChars sep s.data []).map (fun l => String.mk l)

/-- JavaScript `text.trim()`: drop whitespace from both ends. -/
def jsTrim (s : String) : String :=
  String.mk (((s.data.dropWhile Char.isWhitespace).reverse.dropWhile
    Char.isWhitespace).reverse)

/-- Weather Resolver, `fetchWeather` (`App.tsx` lines 109-147).
`geo` is the outcome of the one-shot geolocation request (the
coordinates only feed the prompt of the opaque engine call, so the
success payload is `Unit`); `engine` is the outcome of the Answer
Engine call; `prev` is the value of the `weather` slot when the
response settles. Mirrors the source line by line:
geolocation error sets the fixed GPS error tuple; a thrown engine
call sets the fixed offline tuple; absent or empty `response.text`
falls through the `if (text)` guard and leaves the slot unchanged;
otherwise the text is split on pipes, each part trimmed, and either
parsed as a triple (3 or more parts) or degraded (fewer). -/
def fetchWeather (geo : Except GeoError Unit) (engine : EngineText)
    (prev : Weather) : Weather :=
  match geo with
  | .error _ => { temp := "--", condition := "NO SIGNAL", location := "GPS ERROR" }
  | .ok _ =>
    match engine with
    | .error _ => { temp := "ERR", condition := "OFFLINE", location := "UNKNOWN" }
    | .ok none => prev
    | .ok (some text) =>
      if text = "" then prev
      else
        let parts := (jsSplit '|' text).map jsTrim
        if parts.length ≥ 3 then
          { location := parts.getD 0 "", temp := parts.getD 1 "",
            condition := parts.getD 2 "" }
        else
          { prev with condition := "DATA RECEIVED", location := "LOCAL" }

/-- The fixed three-line fallback installed by `fetchNews` on a failed
engine call (`App.tsx` lines 162-166). -/
def newsFallback : List String :=
  [ "NETWORK ERROR: UNABLE TO SYNC WITH WORLD DATA.",
    "LOCAL CACHE LOADED.",
    "SYSTEM DIAGNOSTICS RECOMMENDED." ]

/-- News Feed Loader, `fetchNews` (`App.tsx` lines 149-168). `engine`
is the outcome of the Answer Engine call; `prev` is the value of the
`newsHeadlines` slot when the response settles. A thrown call
installs the fixed fallback; absent or empty `response.text` falls
through the `if (text)` guard and leaves the slot unchanged;
otherwise the text is split on newlines, blank lines are dropped,
and the first 3 entries are kept (`slice(0, 3)`). -/
def fetchNews (engine : EngineText) (prev : List String) : List String :=
  match engine with
  | .error _ => newsFallback
  | .ok none => prev
  | .ok (some text) =>
    if text = "" then prev
    else ((jsSplit '\n' text).filter (fun line => jsTrim line ≠ "")).take 3

example : fetchWeather (.ok ()) (.ok (some "Tokyo | 15°C | Rainy")) initialWeather
    = { temp := "15°C", condition := "Rainy", location := "Tokyo" } := by decide

example : fetchWeather (.ok ()) (.ok (some "sunny today")) initialWeather
    = { temp := "--", condition := "DATA RECEIVED", location := "LOCAL" } := by decide

example : fetchNews (.ok (some "A\nB\n\nC\nD\nE")) [] = ["A", "B", "C"] := by decide

/-- The `web` payload of a grounding chunk; in the API both `title`
and `uri` may be absent, and the source dereferences them without
checking (`w.title`, `w.uri`, `App.tsx` line 196). -/
structure WebInfo where
  title : Option String
  uri : Option String
deriving DecidableEq, Repr

/-- A grounding chunk (`response.candidates[0].groundingMetadata.groundingChunks`
element): its `web` field is absent for non-web chunks. -/
structure GroundingChunk where
  web : Option WebInfo
deriving DecidableEq, Repr

/-- An entry of the `groundingUrls` state slot (`App.tsx` line 64,
built at line 196): `title` and `uri` are copied from the web payload
unchecked, so either may be absent (rendered as a blank link). -/
structure Citation where
  title : Option String
  uri : Option String
deriving DecidableEq, Repr

/-- The citation extraction of `handleSearch` (`App.tsx` lines 193-196):
`chunks.map(c => c.web).filter(w => w).map(w => ({title: w.title, uri: w.uri}))`.
The truthiness filter keeps exactly the present `web` payloads
(`filterMap id`), and the final map dereferences them. -/
def extractUrls (chunks : List GroundingChunk) : List Citation :=
  ((chunks.map (fun c => c.web)).filterMap id).map
    (fun w => { title := w.title, uri := w.uri })

/-- The SearchSession slots (`App.tsx` lines 63-65): `searchResult`
(null when no active search), `groundingUrls`, `isSearching`. -/
structure SearchSession where
  resultText : Option String
  citations : List Citation
  pending : Bool
deriving DecidableEq, Repr

/-- Initial SearchSession: no result, no citations, not pending. -/
def initialSession : SearchSession :=
  { resultText := none, citations := [], pending := false }

/-- Eventual outcome of one Answer Engine call issued by
`handleSearch`: generated text (possibly absent) plus grounding
chunks (possibly absent), or a thrown `ServiceError`. -/
inductive EngineOutcome
  | ok (text : Option String) (chunks : Option (List GroundingChunk))
  | err
deriving DecidableEq, Repr

/-- An event of a search interleaving. `issue q o` is an Enter
keydown with query `q` whose engine call will eventually produce `o`;
`settle i` is the completion of the `i`-th issued request, running
the continuation after the `await` in `handleSearch`. -/
inductive SearchEvent
  | issue (query : String) (outcome : EngineOutcome)
  | settle (i : Nat)
deriving DecidableEq, Repr

/-- Orchestrator state: the session slots plus the bookkeeping of the
requests issued so far and which of them have already settled (each
`await` resumes exactly once). -/
structure OrchState where
  session : SearchSession
  issued : List EngineOutcome
  settledIds : List Nat
deriving DecidableEq, Repr

/-- Initial orchestrator state: no session, nothing issued. -/
def initOrchState : OrchState :=
  { session := initialSession, issued := [], settledIds := [] }

/-- One step of `handleSearch` (`App.tsx` lines 170-206). On `issue`:
the guard `e.key === 'Enter' && searchQuery.trim()` makes a
blank-trimmed query a no-op; otherwise `setIsSearching(true)`,
`setSearchResult(null)`, `setGroundingUrls([])` run synchronously and
the engine call goes out. On `settle i`: the continuation of request
`i` runs with no identifier check of any kind — on success it stores
`response.text` and, when chunks are present, the extracted urls
(the catch branch stores the fixed literal and touches no urls);
`finally` clears `isSearching`. The commit is unconditional: the
source carries no request tag. -/
def searchStep (s : OrchState) : SearchEvent → OrchState
  | .issue q outcome =>
    if jsTrim q = "" then s
    else
      { s with
        session := { resultText := none, citations := [], pending := true },
        issued := s.issued ++ [outcome] }
  | .settle i =>
    if s.settledIds.contains i then s
    else
      match s.issued.get? i with
      | none => s
      | some o =>
        let sess := s.session
        let sess' :=
          match o with
          | .ok t chunks =>
            { sess with
              resultText := t,
              citations := match chunks with
                | some cs => extractUrls cs
                | none => sess.citations,
              pending := false }
          | .err =>
            { sess with
              resultText := some "CONNECTION INTERRUPTED. TARGET NOT FOUND.",
              pending := false }
        { s with session := sess', settledIds := i :: s.settledIds }

/-- Running `handleSearch` over a whole interleaving of submissions
and completions. -/
def runSearch (events : List SearchEvent) : OrchState :=
  events.foldl searchStep initOrchState

/-- The race of the specification: query A issued first, query B
issued second, B settles first, A settles last. -/
def raceTrace : List SearchEvent :=
  [ .issue "QUERY A" (.ok (some "A RESULT") none),
    .issue "QUERY B" (.ok (some "B RESULT") none),
    .settle 1,
    .settle 0 ]

example : (runSearch raceTrace).session.resultText = some "A RESULT" := by decide

/-- Truthiness of a nullable string, as JavaScript evaluates
`searchResult ?` (`App.tsx` line 361): `null` and the empty string
are both falsy. -/
def strTruthy : Option String → Bool
  | none => false
  | some s => s ≠ ""

/-- The four renderings the feed pane can select
(`App.tsx` lines 357-398). -/
inductive FeedView
  | querying
  | searchView (result : String) (citations : List Citation)
  | loadingPlaceholder
  | headlines (hs : List String)
deriving DecidableEq, Repr

/-- Display Mode Selector: the feed-pane conditional render
(`App.tsx` lines 357-398), a pure function of the state read there.
`isSearching ?` selects the querying indicator; else
`searchResult ?` (truthiness, so an empty-string result is falsy and
falls through) selects the search-result view with the current
`groundingUrls`; else the headline branch, which shows the
`INITIALIZING FEED...` placeholder when `newsHeadlines` is empty. -/
def selectFeedView (pending : Bool) (resultText : Option String)
    (citations : List Citation) (headlineSet : List String) : FeedView :=
  if pending then .querying
  else if strTruthy resultText then
    .searchView (resultText.getD "") citations
  else if headlineSet = [] then .loadingPlaceholder
  else .headlines headlineSet

/-- The scoped resources the three lifecycle effects acquire: the
clock interval (`App.tsx` line 72), the media-progress interval
(line 80), and the two battery listeners (lines 95-96). -/
inductive Resource
  | clockTimer
  | progressTimer
  | batteryLevelListener
  | batteryChargingListener
deriving DecidableEq, BEq, Repr

/-- Clock effect setup (`App.tsx` lines 71-74): `setInterval` makes
the clock timer live. -/
def clockEffectSetup (live : List Resource) : List Resource :=
  live ++ [.clockTimer]

/-- Clock effect teardown: the returned destructor calls
`clearInterval(timer)` (`App.tsx` line 73). -/
def clockEffectCleanup (live : List Resource) : List Resource :=
  live.erase .clockTimer

/-- Media-progress effect setup (`App.tsx` lines 77-85): an interval
is created only while `isPlaying`. -/
def progressEffectSetup (isPlaying : Bool) (live : List Resource) : List Resource :=
  if isPlaying then live ++ [.progressTimer] else live

/-- Media-progress effect teardown: `clearInterval(interval)`
(`App.tsx` line 84); when no interval was created the argument is
`undefined` and the call is a no-op, as is erasing an absent entry. -/
def progressEffectCleanup (live : List Resource) : List Resource :=
  live.erase .progressTimer

/-- Battery effect setup (`App.tsx` lines 88-99): when the capability
is present, `levelchange` and `chargingchange` listeners are
registered. -/
def batteryEffectSetup (hasBattery : Bool) (live : List Resource) : List Resource :=
  if hasBattery then live ++ [.batteryLevelListener, .batteryChargingListener]
  else live

/-- Battery effect teardown: the effect body returns no destructor
(`App.tsx` lines 88-99 contain no `return`), so unmounting runs
nothing and the live set is untouched. -/
def batteryEffectCleanup (live : List Resource) : List Resource :=
  live

/-- The `battery` state slot `{ level, charging }` (`App.tsx` line 47),
level kept as a percentage. -/
structure BatteryStatus where
  level : Nat
  charging : Bool
deriving DecidableEq, Repr

/-- A battery sensor event firing after some set of registrations is
live: when either listener is still registered, `updateBattery`
(`App.tsx` lines 91-93) overwrites the state slot with the sensor
reading; with no live registration nothing runs. -/
def fireBatteryEvent (live : List Resource) (sensor : BatteryStatus)
    (st : BatteryStatus) : BatteryStatus :=
  if live.contains .batteryLevelListener || live.contains .batteryChargingListener
  then sensor else st

/-- C1: the claim says a stale response is never committed: query A
issued, then query B; B settles first with its result, then A's late
response arrives. `handleSearch` carries no request identifier and
commits every settling response unconditionally, so the final
session holds A's result, not B's — the claim fails on the code. -/
theorem handleSearch_commits_stale_response :
    (runSearch raceTrace).session.resultText = some "A RESULT" ∧
    (runSearch raceTrace).session.resultText ≠ some "B RESULT" ∧
    (runSearch raceTrace).session.pending = false := by decide

/-- C2: the claim says every deactivation leaves zero live recurring
callbacks and registrations, in particular that the battery effect
releases its two listeners. The clock and media-progress effects do
tear their intervals down, but the battery effect returns no
destructor: after setup followed by teardown both listeners are
still live, and a subsequent sensor event still overwrites the
battery slot (update-after-teardown) — the claim fails on the code. -/
theorem batteryEffect_retains_registrations :
    clockEffectCleanup (clockEffectSetup []) = [] ∧
    progressEffectCleanup (progressEffectSetup true []) = [] ∧
    progressEffectCleanup (progressEffectSetup false []) = [] ∧
    batteryEffectCleanup (batteryEffectSetup true [])
      = [.batteryLevelListener, .batteryChargingListener] ∧
    fireBatteryEvent (batteryEffectCleanup (batteryEffectSetup true []))
      { level := 42, charging := false } { level := 100, charging := true }
      = { level := 42, charging := false } := by decide

/-- C3 counterexample: the Answer Engine can succeed with empty text,
which splits on the pipe into a single segment (fewer than 3), yet
the `if (text)` guard leaves the weather slot completely unchanged:
its condition stays `SCANNING...`, not `DATA RECEIVED`. -/
theorem fetchWeather_empty_text_not_degraded :
    ((jsSplit '|' "").map jsTrim).length < 3 ∧
    fetchWeather (.ok ()) (.ok (some "")) initialWeather = initialWeather ∧
    (fetchWeather (.ok ()) (.ok (some "")) initialWeather).condition
      ≠ "DATA RECEIVED" := by decide

/-- C3 amended: for every weather resolution where the Answer Engine
succeeds with nonempty text splitting on the pipe into fewer than 3
trimmed segments, the result keeps the previous temperature and
overwrites only condition (`DATA RECEIVED`) and location (`LOCAL`). -/
theorem fetchWeather_degraded_preserves_temp (text : String) (prev : Weather)
    (hne : text ≠ "")
    (hlen : ((jsSplit '|' text).map jsTrim).length < 3) :
    fetchWeather (.ok ()) (.ok (some text)) prev
      = { temp := prev.temp, condition := "DATA RECEIVED", location := "LOCAL" } := by
  simp only [fetchWeather]
  rw [if_neg hne, if_neg (Nat.not_le.mpr hlen)]

/-- C3 witness: the spec's own example `"sunny today"` (one segment)
degrades condition and location while preserving the temperature. -/
theorem fetchWeather_degraded_preserves_temp_witness :
    "sunny today" ≠ "" ∧
    ((jsSplit '|' "sunny today").map jsTrim).length < 3 ∧
    fetchWeather (.ok ()) (.ok (some "sunny today"))
      { temp := "21°C", condition := "Clear", location := "Berlin" }
      = { temp := "21°C", condition := "DATA RECEIVED", location := "LOCAL" } :=
  ⟨by decide, by decide,
    (fetchWeather_degraded_preserves_temp "sunny today"
      { temp := "21°C", condition := "Clear", location := "Berlin" }
      (by decide) (by decide)).trans (by decide)⟩

/-- C4: for every weather resolution with geolocation success and
engine text splitting on the pipe into 3 or more trimmed segments,
the first segment becomes the location, the second the temperature,
the third the condition, and any further segments are ignored. -/
theorem fetchWeather_parses_triple (text : String) (prev : Weather)
    (hne : text ≠ "")
    (hlen : 3 ≤ ((jsSplit '|' text).map jsTrim).length) :
    fetchWeather (.ok ()) (.ok (some text)) prev
      = { temp := ((jsSplit '|' text).map jsTrim).getD 1 "",
          condition := ((jsSplit '|' text).map jsTrim).getD 2 "",
          location := ((jsSplit '|' text).map jsTrim).getD 0 "" } := by
  simp only [fetchWeather]
  rw [if_neg hne, if_pos hlen]

/-- C4 witness: the spec's example `"Tokyo | 15°C | Rainy"` resolves
to location `Tokyo`, temperature `15°C`, condition `Rainy`. -/
theorem fetchWeather_parses_triple_witness :
    "Tokyo | 15°C | Rainy" ≠ "" ∧
    3 ≤ ((jsSplit '|' "Tokyo | 15°C | Rainy").map jsTrim).length ∧
    fetchWeather (.ok ()) (.ok (some "Tokyo | 15°C | Rainy")) initialWeather
      = { temp := "15°C", condition := "Rainy", location := "Tokyo" } :=
  ⟨by decide, by decide,
    (fetchWeather_parses_triple "Tokyo | 15°C | Rainy" initialWeather
      (by decide) (by decide)).trans (by decide)⟩

/-- A search completion whose grounding chunk carries a web payload
with a title but no uri. -/
def blankLinkTrace : List SearchEvent :=
  [ .issue "QUERY" (.ok (some "RESULT")
      (some [{ web := some { title := some "EXAMPLE", uri := none } }])),
    .settle 0 ]

/-- C5 counterexample: the filter of `handleSearch` checks only that
a chunk has a `web` payload, never that the payload has a uri, so a
successful completion commits a citation whose link is blank. -/
theorem handleSearch_commits_blank_link :
    (runSearch blankLinkTrace).session.pending = false ∧
    (runSearch blankLinkTrace).session.citations
      = [{ title := some "EXAMPLE", uri := none }] ∧
    ((runSearch blankLinkTrace).session.citations.map Citation.uri)
      = [none] := by decide

/-- C5 amended: the committed citations are exactly the chunks that
carry a web payload, in order, each copying that payload's title and
uri unchecked; a chunk without a web payload is dropped entirely,
but a web payload with an absent uri is still committed and yields a
blank link. -/
theorem extractUrls_filters_webless (chunks : List GroundingChunk) :
    extractUrls chunks
      = (chunks.filterMap (fun c => c.web)).map
          (fun w => { title := w.title, uri := w.uri }) ∧
    ∀ c, c.web = none → extractUrls (c :: chunks) = extractUrls chunks := by
  constructor
  · simp [extractUrls, List.filterMap_map]
  · intro c hc
    simp [extractUrls, hc]

/-- C5 amended witness: prepending a chunk with no web payload leaves
the extracted citations unchanged. -/
theorem extractUrls_filters_webless_witness :
    extractUrls ({ web := none }
        :: [{ web := some { title := some "T", uri := some "https://example.example" } }])
      = extractUrls [{ web := some { title := some "T", uri := some "https://example.example" } }] :=
  (extractUrls_filters_webless
    [{ web := some { title := some "T", uri := some "https://example.example" } }]).2
    { web := none } rfl

/-- C6: a geolocation failure (either permission denial or position
unavailability) yields exactly the tuple `--` / `NO SIGNAL` /
`GPS ERROR`, for every possible engine outcome — that is, the result
never depends on the Answer Engine, which is only called in the
success callback; and a thrown engine call yields exactly
`ERR` / `OFFLINE` / `UNKNOWN`. -/
theorem fetchWeather_error_tuples (g : GeoError) (engine : EngineText)
    (prev : Weather) :
    fetchWeather (.error g) engine prev
      = { temp := "--", condition := "NO SIGNAL", location := "GPS ERROR" } ∧
    fetchWeather (.ok ()) (.error ()) prev
      = { temp := "ERR", condition := "OFFLINE", location := "UNKNOWN" } :=
  ⟨rfl, rfl⟩

/-- C7: for every successful news load with nonempty returned text,
the headline slot becomes the newline-split lines, blanks (after
trimming) dropped, clamped to the first 3 in original order. -/
theorem fetchNews_clamps_headlines (text : String) (prev : List String)
    (hne : text ≠ "") :
    fetchNews (.ok (some text)) prev
      = ((jsSplit '\n' text).filter (fun line => jsTrim line ≠ "")).take 3 := by
  simp [fetchNews, hne]

/-- Five meaningful headlines with one blank line interspersed. -/
def newsSample : String :=
  "NEON GRID ONLINE\nSYNTH MARKET RALLIES\n\nDATA BROKERS MERGE\nORBITAL RELAY LAUNCH\nCHROME DISTRICT CURFEW"

/-- C7 witness: the spec's scenario — 5 meaningful lines and one
blank line yield exactly the first 3 non-blank lines. -/
theorem fetchNews_clamps_headlines_witness :
    newsSample ≠ "" ∧
    fetchNews (.ok (some newsSample)) []
      = ["NEON GRID ONLINE", "SYNTH MARKET RALLIES", "DATA BROKERS MERGE"] :=
  ⟨by decide,
    (fetchNews_clamps_headlines newsSample [] (by decide)).trans (by decide)⟩

/-- C8: a news load whose engine call throws installs the literal
three-line fallback verbatim, whatever the slot held before; the
catch branch is the only handling — no retry exists in the source. -/
theorem fetchNews_failure_fallback (prev : List String) :
    fetchNews (.error ()) prev
      = [ "NETWORK ERROR: UNABLE TO SYNC WITH WORLD DATA.",
          "LOCAL CACHE LOADED.",
          "SYSTEM DIAGNOSTICS RECOMMENDED." ] :=
  rfl

/-- C9 counterexample: a non-null but empty `searchResult` is falsy
in the render conditional, so the selector shows the headline view,
not the search-result view the claim requires for every non-null
result. -/
theorem selectFeedView_empty_result_shows_headlines :
    (some "" : Option String) ≠ none ∧
    selectFeedView false (some "") [] ["HEADLINE ONE"]
      = .headlines ["HEADLINE ONE"] ∧
    selectFeedView false (some "") [] ["HEADLINE ONE"]
      ≠ .searchView "" [] := by decide

/-- C9 amended: the selector is a pure function of the state it
reads: pending selects the querying indicator; else a non-null and
nonempty result selects the search view with the current citations;
else (null or empty result) the headline view, with the loading
placeholder when the headline set is empty — in particular a cleared
session (null result) with populated headlines always yields the
headline view. -/
theorem selectFeedView_cases (r : Option String) (cs : List Citation)
    (hs : List String) :
    selectFeedView true r cs hs = .querying ∧
    (∀ s, r = some s → s ≠ "" → selectFeedView false r cs hs = .searchView s cs) ∧
    (strTruthy r = false → hs = [] →
      selectFeedView false r cs hs = .loadingPlaceholder) ∧
    (strTruthy r = false → hs ≠ [] →
      selectFeedView false r cs hs = .headlines hs) ∧
    (r = none → hs ≠ [] → selectFeedView false r cs hs = .headlines hs) := by
  refine ⟨rfl, ?_, ?_, ?_, ?_⟩
  · intro s hr hs'
    subst hr
    simp [selectFeedView, strTruthy, hs']
  · intro hf he
    simp [selectFeedView, hf, he]
  · intro hf he
    simp [selectFeedView, hf, he]
  · intro hr he
    subst hr
    simp [selectFeedView, strTruthy, he]

/-- C9 amended witness: a cleared session with one headline renders
the headline view. -/
theorem selectFeedView_cases_witness :
    selectFeedView false none [] ["HEADLINE ONE"] = .headlines ["HEADLINE ONE"] :=
  (selectFeedView_cases none [] ["HEADLINE ONE"]).2.2.2.2 rfl (by decide)

/-- C10: when the Answer Engine succeeds with absent or empty text,
the `if (text)` guard skips every write: the weather slot and the
headline slot are returned unchanged (no parse, no fallback), and an
empty headline slot keeps selecting the loading placeholder. -/
theorem emptyText_leaves_slots_unchanged (prevW : Weather)
    (prevN : List String) (cs : List Citation) :
    fetchWeather (.ok ()) (.ok none) prevW = prevW ∧
    fetchWeather (.ok ()) (.ok (some "")) prevW = prevW ∧
    fetchNews (.ok none) prevN = prevN ∧
    fetchNews (.ok (some "")) prevN = prevN ∧
    selectFeedView false none cs [] = .loadingPlaceholder :=
  ⟨rfl, by simp [fetchWeather], rfl, by simp [fetchNews], rfl⟩

end Hud
